import Mathlib

/-!
# Zero-Trust Firewall — verified model of the risk/policy core

Shallow embedding of the core of the `zeroTrustFirewall` repository:

* `app/url_inspector.py` — URL feature extraction (`extract_features`, on top
  of Python's `urllib.parse.urlparse`), the rule-based `heuristic_score`, and
  the aggregating `inspect_url` that optionally blends in an external
  classifier probability;
* `app/policy_engine.py` — the zero-trust `enforce_policy` decision tree.

Conventions of the embedding:

* Python strings are Lean `String`s; character-level work happens on
  `String.data : List Char`.
* Python floats are exact numbers: the risk weights, thresholds and the
  classifier probability are `ℚ` (every Python float is a rational); the
  hostname entropy, mathematically `-Σ p·log2 p`, is a genuine `ℝ`.
* Fallible code returns `Except String α`: `urlparse` raises `ValueError`
  on an authority with unbalanced square brackets, on an invalid
  bracket-balanced host and on the NFKC netloc check, and an external
  classifier invocation may raise; all are modelled as `.error`.
* The optionally loaded classifier (`MODEL_AVAILABLE` / `clf`) is an
  `Option ScoringCapability` parameter of `inspect_url`: `none` is the
  `MODEL_AVAILABLE = False` state, `some c` a loaded model.
-/

/-! ## URL parsing (the part of `urllib.parse.urlparse` the inspector uses)

`extract_features` only consumes `p.netloc`, so only the netloc side of
CPython 3.11's `urlsplit` is modelled: the whitespace preprocessing (lstrip
of C0 controls and space, removal of every tab/CR/LF), optional scheme
removal, a network location exactly when the remainder starts with `//`, and
all three `ValueError` paths of `urlsplit` — the unbalanced-bracket check,
`_check_bracketed_host` on a bracket-balanced authority, and the NFKC
`_checknetloc` check. Two pieces of externally-tabled behaviour are kept
abstract rather than reproduced: the full textual IPv6 grammar of
`ipaddress.IPv6Address` and Unicode NFKC normalization are unspecified
functions (`Classical.arbitrary`), so on the inputs they govern nothing is
provable in either direction — the model never accepts a URL the program
rejects there. -/

/-- `urlsplit` preprocessing: the URL is first stripped of leading WHATWG
C0-control-or-space characters (code points up to 0x20), then every tab, CR
and LF is removed wherever it occurs (`_UNSAFE_URL_BYTES_TO_REMOVE`). -/
def urlsplit_clean (url : List Char) : List Char :=
  (url.dropWhile (fun c => decide (c.toNat ≤ 0x20))).filter
    (fun c => !(c == '\t' || c == '\r' || c == '\n'))

/-- Characters CPython allows inside a URL scheme
(`scheme_chars = ascii_letters + digits + "+-."`). -/
def scheme_char (c : Char) : Bool :=
  c.isAlpha || c.isDigit || c == '+' || c == '-' || c == '.'

/-- Whether a char list starts with an ASCII letter — CPython's
`url[0].isascii() and url[0].isalpha()` guard on the scheme. -/
def first_alpha : List Char → Bool
  | [] => false
  | c :: _ => c.isAlpha

/-- Scheme removal of CPython `urlsplit`: if the first `:` is at a positive
index, the text before it starts with an ASCII letter and consists of scheme
characters, drop `scheme:`; otherwise the URL is unchanged. -/
def removeScheme (url : List Char) : List Char :=
  let pre := url.takeWhile (fun c => c != ':')
  match url.drop pre.length with
  | [] => url                       -- no colon anywhere
  | _ :: rest => if first_alpha pre && pre.all scheme_char then rest else url

/-- The candidate network location of a raw URL: after `urlsplit`'s
whitespace preprocessing and scheme removal, if the remainder starts with
`//` the netloc runs until the first `/`, `?` or `#` (CPython
`_splitnetloc`); otherwise the netloc is empty. -/
def raw_netloc (url : List Char) : List Char :=
  let rest := removeScheme (urlsplit_clean url)
  if rest.take 2 = ['/', '/'] then
    (rest.drop 2).takeWhile (fun c => c != '/' && c != '?' && c != '#')
  else []

/-- `str.partition(c)[2]`: the text after the first occurrence of `c`
(empty when `c` is absent). -/
def after_first (c : Char) (l : List Char) : List Char :=
  (l.dropWhile (fun x => x != c)).drop 1

/-- `str.partition(c)[0]`: the text before the first occurrence of `c`
(the whole text when `c` is absent). -/
def before_first (c : Char) (l : List Char) : List Char :=
  l.takeWhile (fun x => x != c)

/-- The host text `urlsplit` validates inside a bracket-balanced authority:
`netloc.partition('[')[2].partition(']')[0]`. -/
def bracketed_host (netloc : List Char) : List Char :=
  before_first ']' (after_first '[' netloc)

/-- `re.match(r"\Av[a-fA-F0-9]+\..+\Z", hostname)` of
`_check_bracketed_host`: `v`, one or more hex digits, a dot, then at least
one more character. (`urlsplit` removed every newline, so `.` matching any
character is exact here.) -/
def is_ipvfuture (host : List Char) : Bool :=
  match host with
  | 'v' :: rest =>
      let hex := rest.takeWhile (fun c =>
        c.isDigit || ('a' ≤ c && c ≤ 'f') || ('A' ≤ c && c ≤ 'F'))
      !hex.isEmpty && (rest.drop hex.length).take 1 == ['.'] &&
        !(rest.drop (hex.length + 1)).isEmpty
  | _ => false

/-- One octet of `ipaddress.IPv4Address._parse_octet`: nonempty, at most
three ASCII digits, no leading zero unless exactly "0", value at most
255. -/
def ipv4_octet_ok (p : List Char) : Bool :=
  !p.isEmpty && p.all Char.isDigit && decide (p.length ≤ 3) &&
    (p == ['0'] || p.take 1 != ['0']) &&
    decide ((p.foldl (fun n c => 10 * n + (c.toNat - 48)) 0) ≤ 255)

/-- `ipaddress.IPv4Address` on text: exactly four dot-separated valid
octets. -/
def is_strict_ipv4 (host : List Char) : Bool :=
  match host.splitOn '.' with
  | [a, b, c, d] =>
      ipv4_octet_ok a && ipv4_octet_ok b && ipv4_octet_ok c && ipv4_octet_ok d
  | _ => false

/-- The outcome of `ipaddress.ip_address` on a bracketed host text. -/
inductive AddrKind where
  | v4
  | v6
  | invalid

/-- Unspecified part of the model: whether a colon-containing host text is a
valid (possibly zone-scoped) IPv6 address. The RFC 4291 textual grammar of
`ipaddress.IPv6Address` is not reproduced; no proof here depends on which
colon-containing hosts parse. -/
noncomputable def ipv6_valid_unspecified : List Char → Bool :=
  Classical.arbitrary _

/-- `ipaddress.ip_address` on the bracketed host text: a strict dotted quad
is IPv4; a text without any colon is neither IPv4 nor a textual IPv6 address
(which needs at least two colons after the zone split); colon-containing
texts are classified by the unspecified IPv6 grammar. -/
noncomputable def ip_address_kind (host : List Char) : AddrKind :=
  if is_strict_ipv4 host then .v4
  else if !host.contains ':' then .invalid
  else if ipv6_valid_unspecified host then .v6
  else .invalid

/-- `_check_bracketed_host` of `urllib.parse`: a host starting with `v`
must match the IPvFuture pattern; any other host must be a valid IP
address, and an IPv4 address may not stand in brackets. -/
noncomputable def check_bracketed_host (host : List Char) : Except String Unit :=
  if host.take 1 = ['v'] then
    if is_ipvfuture host then .ok () else .error "IPvFuture address is invalid"
  else
    match ip_address_kind host with
    | .v4 => .error "An IPv4 address cannot be in brackets"
    | .v6 => .ok ()
    | .invalid =>
        .error ("\u0027" ++ (⟨host⟩ : String) ++
          "\u0027 does not appear to be an IPv4 or IPv6 address")

/-- Unspecified part of the model: Unicode NFKC normalization, used by
`_checknetloc` only on non-ASCII netlocs. The Unicode table is not
reproduced, so nothing about non-ASCII authorities is provable in either
direction. -/
noncomputable def nfkc_unspecified : List Char → List Char :=
  Classical.arbitrary _

/-- `_checknetloc` of `urllib.parse`: an empty or all-ASCII netloc passes at
once (`netloc.isascii()`); otherwise the `@:#?` characters already accounted
for are removed, the rest is NFKC-normalized, and the netloc is rejected
when normalization changed it and the result contains one of `/?#@:`. -/
noncomputable def checknetloc (netloc : List Char) : Except String Unit :=
  if netloc.isEmpty || netloc.all (fun c => decide (c.toNat ≤ 127)) then .ok ()
  else
    let n := netloc.filter (fun c => !(c == '@' || c == ':' || c == '#' || c == '?'))
    let n2 := nfkc_unspecified n
    if n = n2 then .ok ()
    else if ['/', '?', '#', '@', ':'].any (fun c => n2.contains c) then
      .error ("netloc \u0027" ++ (⟨netloc⟩ : String) ++
        "\u0027 contains invalid characters under NFKC normalization")
    else .ok ()

/-- `urlparse(url).netloc`, with all of `urlsplit`'s `ValueError` paths: an
authority holding `[` without `]` (or `]` without `[`) raises
`ValueError("Invalid IPv6 URL")`; a bracket-balanced authority must carry a
valid bracketed host; and the netloc must pass the NFKC check. -/
noncomputable def urlparse_netloc (url : List Char) : Except String (List Char) :=
  let netloc := raw_netloc url
  if (netloc.contains '[' && !netloc.contains ']') ||
     (netloc.contains ']' && !netloc.contains '[') then
    .error "Invalid IPv6 URL"
  else if netloc.contains '[' && netloc.contains ']' then
    match check_bracketed_host (bracketed_host netloc) with
    | .error e => .error e
    | .ok _ =>
        match checknetloc netloc with
        | .error e => .error e
        | .ok _ => .ok netloc
  else
    match checknetloc netloc with
    | .error e => .error e
    | .ok _ => .ok netloc

/-! ## Feature extraction (`url_inspector.py`) -/

/-- `SUSPICIOUS_TLDS` of `url_inspector.py` (a set iterated with `any`, so
the order is immaterial). -/
def SUSPICIOUS_TLDS : List (List Char) :=
  [".tk".data, ".ml".data, ".ga".data, ".cf".data, ".gq".data,
   ".xyz".data, ".top".data, ".club".data, ".work".data]

/-- `re.match(r"^\d+\.\d+\.\d+\.\d+$", netloc)` as a Boolean: the netloc,
up to a trailing newline which `$` tolerates, splits on `.` into exactly four
nonempty all-digit groups. (Python's `\d` also accepts non-ASCII decimal
digits; the model is ASCII, which is what URLs of interest contain.) -/
def matches_ip (s : List Char) : Bool :=
  let t := match s.getLast? with
    | some c => if c = '\n' then s.dropLast else s
    | none => s
  match t.splitOn '.' with
  | [a, b, c, d] =>
      !a.isEmpty && a.all Char.isDigit && !b.isEmpty && b.all Char.isDigit &&
      !c.isEmpty && c.all Char.isDigit && !d.isEmpty && d.all Char.isDigit
  | _ => false

/-- `hostname_entropy` of `url_inspector.py`: 0 for the empty host, else the
Shannon entropy `-Σ (v/total)·log2(v/total)` over the count `v` of each
distinct character of the host. -/
noncomputable def hostname_entropy (host : List Char) : ℝ :=
  if host = [] then 0
  else
    let total : ℝ := host.length;
    -((host.dedup.map (fun c =>
        ((host.count c : ℝ) / total) * Real.logb 2 ((host.count c : ℝ) / total))).sum)

/-- `str.lower()` (the inputs the engine compares are ASCII, where
`Char.toLower` agrees with Python). -/
def py_lower (s : String) : String := ⟨s.data.map Char.toLower⟩

/-- The feature dictionary built by `extract_features`, with the fields in
the source's insertion order. -/
structure URLFeatures where
  length : ℕ
  host_len : ℕ
  num_dots : ℕ
  num_slashes : ℕ
  has_ip : Bool
  contains_at : Bool
  contains_percent : Bool
  entropy : ℝ
  suspicious_tld : Bool
  has_https : Bool

/-- `extract_features` of `url_inspector.py`. The only fallible step is
`urlparse`; every feature is then a total computation over the URL text and
the parsed netloc. -/
noncomputable def extract_features (url : String) : Except String URLFeatures :=
  match urlparse_netloc url.data with
  | .error e => .error e
  | .ok netloc =>
      .ok { length := url.data.length
            host_len := netloc.length
            num_dots := netloc.count '.'
            num_slashes := url.data.count '/'
            has_ip := matches_ip netloc
            contains_at := url.data.contains '@'
            contains_percent := url.data.contains '%'
            entropy := hostname_entropy netloc
            suspicious_tld := SUSPICIOUS_TLDS.any (fun tld => tld.isSuffixOf netloc)
            has_https := (py_lower url).data.take 5 = "https".data }

/-! ## Heuristic scoring (`heuristic_score`)

Each Python `if` both adds the rule's weight to `score` and appends the
rule's explanation to `reasons`; the embedding performs the same two updates
under the same condition. -/

noncomputable def heuristic_score (f : URLFeatures) : ℚ × String :=
  let score : ℚ := 0
  let reasons : List String := []
  let score := if f.has_ip then score + 0.5 else score
  let reasons := if f.has_ip then reasons ++ ["IP address used in hostname"] else reasons
  let score := if f.contains_at then score + 0.4 else score
  let reasons :=
    if f.contains_at then reasons ++ ["Contains '@' symbol (redirect trick)"] else reasons
  let score := if f.contains_percent then score + 0.3 else score
  let reasons :=
    if f.contains_percent then reasons ++ ["Encoded characters (%) in URL"] else reasons
  let score := if f.suspicious_tld then score + 0.3 else score
  let reasons :=
    if f.suspicious_tld then reasons ++ ["Suspicious TLD (.tk/.ml/etc)"] else reasons
  let score := if f.length > 200 then score + 0.2 else score
  let reasons := if f.length > 200 then reasons ++ ["Unusually long URL"] else reasons
  let score := if f.num_slashes > 10 then score + 0.2 else score
  let reasons := if f.num_slashes > 10 then reasons ++ ["Too many subdirectories"] else reasons
  let score := if f.entropy > 4.2 then score + 0.3 else score
  let reasons :=
    if f.entropy > 4.2 then reasons ++ ["High domain entropy (random hostname)"] else reasons
  let score := min 1 score
  let reasons := if reasons = [] then ["Heuristics indicate safe URL"] else reasons
  (score, String.intercalate "; " reasons)

/-! ## Aggregation (`inspect_url`) -/

/-- Python's `"%.2f"` formatting of a score (two decimal places; Python
rounds the underlying binary float half-to-even, which agrees with `round`
away from exact half-cent values — no score the engine formats sits there). -/
def fmt2 (q : ℚ) : String :=
  let n : ℤ := round (q * 100)
  let sign := if n < 0 then "-" else ""
  let m : ℕ := n.natAbs
  sign ++ toString (m / 100) ++ "." ++ (if m % 100 < 10 then "0" else "") ++ toString (m % 100)

/-- The externally owned scoring capability (`clf.predict_proba(...)[0][1]`):
a function from the feature vector to a probability, whose invocation may
fail. -/
def ScoringCapability : Type := List ℝ → Except String ℚ

/-- The ordered 8-dimensional feature vector `inspect_url` hands the model. -/
noncomputable def feature_vector (f : URLFeatures) : List ℝ :=
  [(f.length : ℝ), (f.host_len : ℝ), (f.num_dots : ℝ), (f.num_slashes : ℝ),
   f.entropy,
   if f.contains_at then 1 else 0,
   if f.contains_percent then 1 else 0,
   if f.suspicious_tld then 1 else 0]

/-- `inspect_url` of `url_inspector.py`: extract features, score by rules;
return the heuristic pair when `heuristic_risk >= 0.7` or no model is
available, and otherwise combine with the model probability as
`max(prob, heuristic_risk)` under the `ML+Heuristic` reason string. -/
noncomputable def inspect_url (clf : Option ScoringCapability) (url : String) :
    Except String (ℚ × String) :=
  match extract_features url with
  | .error e => .error e
  | .ok features =>
      let h := heuristic_score features
      if 0.7 ≤ h.1 ∨ clf.isNone then .ok h
      else
        match clf with
        | none => .ok h   -- not reached: the guard above returned for a missing model
        | some c =>
            match c (feature_vector features) with
            | .error e => .error e
            | .ok prob =>
                .ok (max prob h.1,
                     "ML+Heuristic score (ML=" ++ fmt2 prob ++
                       ", heuristics=" ++ fmt2 h.1 ++ ")")

/-! ## Policy engine (`policy_engine.py`) -/

/-- Modelled from the spec: `app/config.py`, from which `policy_engine.py`
imports `ALLOW_THRESHOLD`, is not among the repository's source files; the
spec fixes the configured review cut-off as `ALLOW_THRESHOLD = 0.5`. -/
def ALLOW_THRESHOLD : ℚ := 0.5

/-- `enforce_policy` of `policy_engine.py`: the ordered zero-trust decision
tree over identity, device posture and risk score, returning
`(decision, reason)`. -/
def enforce_policy (user : String) (device : String) (risk_score : ℚ) :
    String × String :=
  if py_lower user = "anonymous" then
    ("BLOCK", "Unauthenticated user — Zero-Trust requires identity verification")
  else if py_lower device ∉ (["trusted", "compliant"] : List String) then
    if risk_score > 0.3 then
      ("BLOCK", "Unverified device and elevated risk")
    else
      ("REVIEW", "Device not compliant; review required")
  else if risk_score ≥ 0.85 then
    ("BLOCK", "High phishing probability detected")
  else if risk_score ≥ ALLOW_THRESHOLD then
    ("REVIEW", "Medium risk (" ++ fmt2 risk_score ++ ") — manual review needed")
  else
    ("ALLOW", "Risk low (" ++ fmt2 risk_score ++ ") — access permitted")

/-! ## The rule table

The spec presents `heuristic_score` as an ordered table of
(condition, weight, explanation fragment) rows whose fired rows are summed
(clamped to 1) and whose fired fragments are joined with `"; "`. The
definitions below write that table down; `heuristic_score_eq` proves the
source's sequential accumulation equal to it. -/

/-- The ordered list of (weight, fragment) pairs of the rules a feature set
fires, one row per rule of the table, in table order. -/
noncomputable def fired_rules (f : URLFeatures) : List (ℚ × String) :=
  (if f.has_ip then [((0.5 : ℚ), "IP address used in hostname")] else []) ++
  (if f.contains_at then [((0.4 : ℚ), "Contains '@' symbol (redirect trick)")] else []) ++
  (if f.contains_percent then [((0.3 : ℚ), "Encoded characters (%) in URL")] else []) ++
  (if f.suspicious_tld then [((0.3 : ℚ), "Suspicious TLD (.tk/.ml/etc)")] else []) ++
  (if f.length > 200 then [((0.2 : ℚ), "Unusually long URL")] else []) ++
  (if f.num_slashes > 10 then [((0.2 : ℚ), "Too many subdirectories")] else []) ++
  (if f.entropy > 4.2 then [((0.3 : ℚ), "High domain entropy (random hostname)")] else [])

/-- The summed weight of a list of fired rules. -/
def rule_score (rs : List (ℚ × String)) : ℚ := (rs.map Prod.fst).sum

/-- The explanation fragments of a list of fired rules, in order. -/
def rule_msgs (rs : List (ℚ × String)) : List String := rs.map Prod.snd

set_option maxHeartbeats 1000000 in
/-- The source's sequential accumulation agrees with the rule table: the
score is the clamped sum of the fired weights and the reason joins the fired
fragments (or the safe default) with `"; "`. -/
theorem heuristic_score_eq (f : URLFeatures) :
    heuristic_score f =
      (min 1 (rule_score (fired_rules f)),
       String.intercalate "; "
         (if fired_rules f = [] then ["Heuristics indicate safe URL"]
          else rule_msgs (fired_rules f))) := by
  cases hip : f.has_ip <;> cases hat : f.contains_at <;>
    cases hpc : f.contains_percent <;> cases htl : f.suspicious_tld <;>
    by_cases hln : f.length > 200 <;> by_cases hsl : f.num_slashes > 10 <;>
    by_cases hen : f.entropy > 4.2 <;>
    simp [heuristic_score, fired_rules, rule_score, rule_msgs,
          hip, hat, hpc, htl, hln, hsl, hen] <;>
    norm_num

/-! ## Elementary facts about the model -/

theorem hostname_entropy_nil : hostname_entropy [] = 0 := by
  simp [hostname_entropy]

theorem ite_w_nonneg (c : Prop) [Decidable c] {w : ℚ} (hw : 0 ≤ w) :
    0 ≤ if c then w else 0 := by
  split <;> simp [hw]

theorem ite_w_mono {c d : Prop} [Decidable c] [Decidable d] {w : ℚ} (hw : 0 ≤ w)
    (h : c → d) : (if c then w else 0) ≤ if d then w else 0 := by
  by_cases hc : c
  · rw [if_pos hc, if_pos (h hc)]
  · rw [if_neg hc]; exact ite_w_nonneg d hw

theorem rule_score_fired (f : URLFeatures) :
    rule_score (fired_rules f) =
      (if f.has_ip then (0.5 : ℚ) else 0) + (if f.contains_at then (0.4 : ℚ) else 0) +
      (if f.contains_percent then (0.3 : ℚ) else 0) +
      (if f.suspicious_tld then (0.3 : ℚ) else 0) +
      (if f.length > 200 then (0.2 : ℚ) else 0) +
      (if f.num_slashes > 10 then (0.2 : ℚ) else 0) +
      (if f.entropy > 4.2 then (0.3 : ℚ) else 0) := by
  unfold rule_score fired_rules
  simp [List.map_append, List.sum_append,
        apply_ite (List.map (Prod.fst : ℚ × String → ℚ)), apply_ite List.sum]
  ring

theorem heuristic_fst_nonneg (f : URLFeatures) : 0 ≤ (heuristic_score f).1 := by
  rw [heuristic_score_eq]
  refine le_min (by norm_num) ?_
  rw [rule_score_fired]
  repeat' apply add_nonneg
  all_goals exact ite_w_nonneg _ (by norm_num)

theorem heuristic_fst_le_one (f : URLFeatures) : (heuristic_score f).1 ≤ 1 := by
  rw [heuristic_score_eq]
  exact min_le_left _ _

set_option maxHeartbeats 1000000 in
theorem heuristic_snd_ne_empty (f : URLFeatures) : (heuristic_score f).2 ≠ "" := by
  cases hip : f.has_ip <;> cases hat : f.contains_at <;>
    cases hpc : f.contains_percent <;> cases htl : f.suspicious_tld <;>
    by_cases hln : f.length > 200 <;> by_cases hsl : f.num_slashes > 10 <;>
    by_cases hen : f.entropy > 4.2 <;>
    simp [heuristic_score, hip, hat, hpc, htl, hln, hsl, hen] <;>
    decide

/-! ## Parsing lemmas -/

theorem removeScheme_no_colon {l : List Char} (h : ':' ∉ l) : removeScheme l = l := by
  have ht : l.takeWhile (fun c => c != ':') = l := by
    rw [List.takeWhile_eq_self_iff]
    intro x hx
    simp only [bne_iff_ne, ne_eq]
    rintro rfl
    exact h hx
  simp [removeScheme, ht, List.drop_length]

theorem raw_netloc_empty {l : List Char} (h1 : ':' ∉ urlsplit_clean l)
    (h2 : (urlsplit_clean l).take 2 ≠ ['/', '/']) :
    raw_netloc l = [] := by
  simp [raw_netloc, removeScheme_no_colon h1, h2]

theorem extract_features_no_scheme (url : String)
    (h1 : ':' ∉ urlsplit_clean url.data)
    (h2 : (urlsplit_clean url.data).take 2 ≠ ['/', '/']) :
    extract_features url = .ok
      { length := url.data.length
        host_len := 0
        num_dots := 0
        num_slashes := url.data.count '/'
        has_ip := false
        contains_at := url.data.contains '@'
        contains_percent := url.data.contains '%'
        entropy := 0
        suspicious_tld := false
        has_https := (py_lower url).data.take 5 = "https".data } := by
  have hn : urlparse_netloc url.data = .ok [] := by
    simp [urlparse_netloc, raw_netloc_empty h1 h2, checknetloc]
  simp [extract_features, hn, hostname_entropy_nil, matches_ip, SUSPICIOUS_TLDS]

/-! ## Aggregation lemmas -/

theorem inspect_url_no_model (url : String) (f : URLFeatures)
    (h : extract_features url = .ok f) :
    inspect_url none url = .ok (heuristic_score f) := by
  rw [inspect_url, h]
  exact if_pos (Or.inr rfl)

theorem inspect_url_highrisk (c : ScoringCapability) (url : String) (f : URLFeatures)
    (h : extract_features url = .ok f) (h7 : 0.7 ≤ (heuristic_score f).1) :
    inspect_url (some c) url = .ok (heuristic_score f) := by
  rw [inspect_url, h]
  exact if_pos (Or.inl h7)

theorem inspect_url_model_ok (c : ScoringCapability) (url : String) (f : URLFeatures)
    (p : ℚ) (h : extract_features url = .ok f) (h7 : (heuristic_score f).1 < 0.7)
    (hp : c (feature_vector f) = .ok p) :
    inspect_url (some c) url =
      .ok (max p (heuristic_score f).1,
           "ML+Heuristic score (ML=" ++ fmt2 p ++
             ", heuristics=" ++ fmt2 (heuristic_score f).1 ++ ")") := by
  simp only [inspect_url, h]
  rw [if_neg (by simp [not_le.mpr h7])]
  simp only [hp]

theorem inspect_url_model_err (c : ScoringCapability) (url : String) (f : URLFeatures)
    (e : String) (h : extract_features url = .ok f) (h7 : (heuristic_score f).1 < 0.7)
    (hp : c (feature_vector f) = .error e) :
    inspect_url (some c) url = .error e := by
  simp only [inspect_url, h]
  rw [if_neg (by simp [not_le.mpr h7])]
  simp only [hp]

theorem inspect_url_parse_err (clf : Option ScoringCapability) (url : String)
    (e : String) (h : extract_features url = .error e) :
    inspect_url clf url = .error e := by
  rw [inspect_url, h]

/-! ## The claims -/

/-- C2: for every user string, device string and risk score, `enforce_policy`
with a user case-insensitively equal to "anonymous" returns verdict BLOCK,
regardless of device posture and risk score — the identity check is evaluated
first and overrides the device and risk checks. -/
theorem C2_theorem (user device : String) (risk : ℚ)
    (h : py_lower user = "anonymous") :
    (enforce_policy user device risk).1 = "BLOCK" := by
  simp [enforce_policy, h]

/-- C2 witness: a concrete anonymous user is blocked on a trusted device at
low risk. -/
theorem C2_witness : (enforce_policy "ANONYMOUS" "trusted" (0.01 : ℚ)).1 = "BLOCK" :=
  C2_theorem "ANONYMOUS" "trusted" 0.01 (by decide)

/-- C3: for every non-anonymous user on a device whose lowercase form is
neither "trusted" nor "compliant", `enforce_policy` returns BLOCK when the
risk exceeds 0.3 and REVIEW otherwise; the untrusted-device branch never
returns ALLOW. -/
theorem C3_theorem (user device : String) (risk : ℚ)
    (hu : py_lower user ≠ "anonymous")
    (hd : py_lower device ∉ (["trusted", "compliant"] : List String)) :
    (risk > 0.3 → (enforce_policy user device risk).1 = "BLOCK") ∧
    (risk ≤ 0.3 → (enforce_policy user device risk).1 = "REVIEW") ∧
    (enforce_policy user device risk).1 ≠ "ALLOW" := by
  unfold enforce_policy
  rw [if_neg hu, if_pos hd]
  refine ⟨fun h => by rw [if_pos h], fun h => by rw [if_neg (not_lt.mpr h)], ?_⟩
  by_cases hr : risk > 0.3
  · rw [if_pos hr]; decide
  · rw [if_neg hr]; decide

/-- C3 witness: the spec's two untrusted-device examples. -/
theorem C3_witness :
    (enforce_policy "alice" "unverified" (0.2 : ℚ)).1 = "REVIEW" ∧
    (enforce_policy "alice" "unverified" (0.4 : ℚ)).1 = "BLOCK" :=
  ⟨( C3_theorem "alice" "unverified" 0.2 (by decide) (by decide)).2.1 (by norm_num),
   ( C3_theorem "alice" "unverified" 0.4 (by decide) (by decide)).1 (by norm_num)⟩

/-- C4: for every non-anonymous user on a trusted or compliant device,
`enforce_policy` BLOCKs at risk ≥ 0.85, REVIEWs at
ALLOW_THRESHOLD ≤ risk < 0.85 and ALLOWs below ALLOW_THRESHOLD; with the
configured ALLOW_THRESHOLD = 0.5, ("alice","trusted",0.2) gives ALLOW,
("alice","trusted",0.6) gives REVIEW and ("alice","trusted",0.9) gives
BLOCK. -/
theorem C4_theorem :
    (∀ (user device : String) (risk : ℚ),
        py_lower user ≠ "anonymous" →
        py_lower device ∈ (["trusted", "compliant"] : List String) →
        (risk ≥ 0.85 → (enforce_policy user device risk).1 = "BLOCK") ∧
        (ALLOW_THRESHOLD ≤ risk → risk < 0.85 →
          (enforce_policy user device risk).1 = "REVIEW") ∧
        (risk < ALLOW_THRESHOLD → (enforce_policy user device risk).1 = "ALLOW")) ∧
    ALLOW_THRESHOLD = 0.5 ∧
    (enforce_policy "alice" "trusted" (0.2 : ℚ)).1 = "ALLOW" ∧
    (enforce_policy "alice" "trusted" (0.6 : ℚ)).1 = "REVIEW" ∧
    (enforce_policy "alice" "trusted" (0.9 : ℚ)).1 = "BLOCK" := by
  have hgen : ∀ (user device : String) (risk : ℚ),
      py_lower user ≠ "anonymous" →
      py_lower device ∈ (["trusted", "compliant"] : List String) →
      (risk ≥ 0.85 → (enforce_policy user device risk).1 = "BLOCK") ∧
      (ALLOW_THRESHOLD ≤ risk → risk < 0.85 →
        (enforce_policy user device risk).1 = "REVIEW") ∧
      (risk < ALLOW_THRESHOLD → (enforce_policy user device risk).1 = "ALLOW") := by
    intro user device risk hu hd
    unfold enforce_policy
    rw [if_neg hu, if_neg (not_not_intro hd)]
    refine ⟨fun h => by rw [if_pos h], fun h1 h2 => ?_, fun h => ?_⟩
    · rw [if_neg (not_le.mpr h2), if_pos h1]
    · rw [if_neg (not_le.mpr (lt_of_lt_of_le h (by norm_num [ALLOW_THRESHOLD]))),
          if_neg (not_le.mpr h)]
  refine ⟨hgen, rfl,
    (hgen "alice" "trusted" 0.2 (by decide) (by decide)).2.2
      (by norm_num [ALLOW_THRESHOLD]),
    (hgen "alice" "trusted" 0.6 (by decide) (by decide)).2.1
      (by norm_num [ALLOW_THRESHOLD]) (by norm_num),
    (hgen "alice" "trusted" 0.9 (by decide) (by decide)).1 (by norm_num)⟩

/-- C4 witness: a concrete trusted-device high-risk request is blocked. -/
theorem C4_witness : (enforce_policy "bob" "Compliant" (0.9 : ℚ)).1 = "BLOCK" :=
  (C4_theorem.1 "bob" "Compliant" 0.9 (by decide) (by decide)).1 (by norm_num)

/-! ## Concrete evaluations used by the claims -/

theorem append_ne_empty_right (s t : String) (ht : t.data ≠ []) : s ++ t ≠ "" := by
  intro h
  apply ht
  have hd := congrArg String.data h
  rw [String.data_append] at hd
  exact (List.append_eq_nil.mp hd).2

theorem ml_reason_ne_empty (a b : String) :
    "ML+Heuristic score (ML=" ++ a ++ ", heuristics=" ++ b ++ ")" ≠ "" :=
  append_ne_empty_right _ ")" (by decide)

theorem heuristic_score_safe (f : URLFeatures) (h1 : f.has_ip = false)
    (h2 : f.contains_at = false) (h3 : f.contains_percent = false)
    (h4 : f.suspicious_tld = false) (h5 : ¬(f.length > 200))
    (h6 : ¬(f.num_slashes > 10)) (h7 : ¬(f.entropy > 4.2)) :
    heuristic_score f = (0, "Heuristics indicate safe URL") := by
  rw [heuristic_score_eq]
  have hfr : fired_rules f = [] := by
    simp [fired_rules, h1, h2, h3, h4, h5, h6, h7]
  rw [hfr]
  norm_num [rule_score]
  decide

theorem extract_x :
    extract_features "x" = .ok ⟨1, 0, 0, 0, false, false, false, 0, false, false⟩ := by
  rw [extract_features_no_scheme "x" (by decide) (by decide)]
  rfl

theorem heuristic_x :
    heuristic_score ⟨1, 0, 0, 0, false, false, false, 0, false, false⟩ =
      (0, "Heuristics indicate safe URL") :=
  heuristic_score_safe _ rfl rfl rfl rfl (by norm_num) (by norm_num) (by norm_num)

theorem extract_atpct :
    extract_features "a@%" = .ok ⟨3, 0, 0, 0, false, true, true, 0, false, false⟩ := by
  rw [extract_features_no_scheme "a@%" (by decide) (by decide)]
  rfl

theorem heuristic_atpct :
    heuristic_score ⟨3, 0, 0, 0, false, true, true, 0, false, false⟩ =
      (0.7, "Contains '@' symbol (redirect trick); Encoded characters (%) in URL") := by
  rw [heuristic_score_eq]
  have hfr : fired_rules ⟨3, 0, 0, 0, false, true, true, 0, false, false⟩ =
      [((0.4 : ℚ), "Contains '@' symbol (redirect trick)"),
       ((0.3 : ℚ), "Encoded characters (%) in URL")] := by
    norm_num [fired_rules]
  rw [hfr]
  norm_num [rule_score, rule_msgs]
  decide

theorem extract_features_invalid_ipv6 :
    extract_features "http://[" = .error "Invalid IPv6 URL" := by
  have h : urlparse_netloc "http://[".data = .error "Invalid IPv6 URL" := rfl
  simp only [extract_features, h]

/-- C1 (amended): for every URL whose parsed authority — after `urlsplit`'s
whitespace preprocessing — is bracket-free and pure ASCII,
`extract_features` returns a feature set, and an empty host yields entropy 0
and hasIP false; extraction is however not exception-free for every input —
`urlparse` raises `ValueError` on an authority with an unmatched bracket, on
a bracket-balanced authority whose bracketed host is no valid IP address,
and on certain non-ASCII authorities (see `C1_counterexample`). -/
theorem C1_theorem (url : String)
    (hb1 : (raw_netloc url.data).contains '[' = false)
    (hb2 : (raw_netloc url.data).contains ']' = false)
    (ha : (raw_netloc url.data).all (fun c => decide (c.toNat ≤ 127)) = true) :
    ∃ f, extract_features url = .ok f ∧
      (f.host_len = 0 → f.entropy = 0 ∧ f.has_ip = false) := by
  have hcheck : checknetloc (raw_netloc url.data) = .ok () := by
    simp [checknetloc, ha]
  have hm1 : '[' ∉ raw_netloc url.data := by simpa using hb1
  have hm2 : ']' ∉ raw_netloc url.data := by simpa using hb2
  have hok : urlparse_netloc url.data = .ok (raw_netloc url.data) := by
    simp [urlparse_netloc, hm1, hm2, hcheck]
  have hfeat : extract_features url = .ok
      { length := url.data.length
        host_len := (raw_netloc url.data).length
        num_dots := (raw_netloc url.data).count '.'
        num_slashes := url.data.count '/'
        has_ip := matches_ip (raw_netloc url.data)
        contains_at := url.data.contains '@'
        contains_percent := url.data.contains '%'
        entropy := hostname_entropy (raw_netloc url.data)
        suspicious_tld := SUSPICIOUS_TLDS.any (fun tld => tld.isSuffixOf (raw_netloc url.data))
        has_https := (py_lower url).data.take 5 = "https".data } := by
    simp only [extract_features, hok]
  refine ⟨_, hfeat, fun h0 => ?_⟩
  have hn : raw_netloc url.data = [] := List.length_eq_zero.mp h0
  constructor
  · show hostname_entropy (raw_netloc url.data) = 0
    rw [hn]
    exact hostname_entropy_nil
  · show matches_ip (raw_netloc url.data) = false
    rw [hn]
    rfl

/-- C1 witness: the empty URL parses to the degenerate feature set. -/
theorem C1_witness :
    ∃ f, extract_features "" = .ok f ∧
      (f.host_len = 0 → f.entropy = 0 ∧ f.has_ip = false) :=
  C1_theorem "" (by decide) (by decide) (by decide)

theorem extract_features_bad_bracket_host :
    extract_features "http://[foo]" =
      .error "\u0027foo\u0027 does not appear to be an IPv4 or IPv6 address" := by
  have h : urlparse_netloc "http://[foo]".data =
      .error "\u0027foo\u0027 does not appear to be an IPv4 or IPv6 address" := rfl
  simp only [extract_features, h]

theorem extract_features_tab_scheme :
    extract_features "http\t://[" = .error "Invalid IPv6 URL" := by
  have h : urlparse_netloc "http\t://[".data = .error "Invalid IPv6 URL" := rfl
  simp only [extract_features, h]

/-- C1 counterexample: `extract_features` does not return a feature set for
every input string — the unmatched bracket of "http://[" propagates
`urlparse`'s `ValueError("Invalid IPv6 URL")`; the bracket-balanced but
invalid host of "http://[foo]" propagates the `ipaddress` rejection; and the
tab inside "http\t://[" is removed by `urlsplit`'s preprocessing, after
which the unmatched bracket raises as well. Exceptions from this stage do
cross the core boundary. -/
theorem C1_counterexample :
    extract_features "http://[" = .error "Invalid IPv6 URL" ∧
    extract_features "http://[foo]" =
      .error "\u0027foo\u0027 does not appear to be an IPv4 or IPv6 address" ∧
    extract_features "http\t://[" = .error "Invalid IPv6 URL" :=
  ⟨extract_features_invalid_ipv6, extract_features_bad_bracket_host,
   extract_features_tab_scheme⟩

/-- C5 (amended): if the scoring capability is unavailable, inspection falls
back to heuristic-only mode: for every URL the parser accepts, `inspect_url`
without a capability returns exactly the heuristic (score, reason) and never
aborts. A *failing invocation* of an available capability is however not
caught — the failure propagates instead of falling back to the heuristic
result (see `C5_counterexample`), and a parse failure propagates as well. -/
theorem C5_theorem (url : String) (f : URLFeatures)
    (h : extract_features url = .ok f) :
    inspect_url none url = .ok (heuristic_score f) :=
  inspect_url_no_model url f h

/-- C5 witness: on a concrete URL with no capability configured, inspection
yields the heuristic result. -/
theorem C5_witness :
    inspect_url none "x" = .ok (0, "Heuristics indicate safe URL") := by
  rw [ C5_theorem "x" ⟨1, 0, 0, 0, false, false, false, 0, false, false⟩ extract_x,
      heuristic_x]

/-- C5 counterexample: a failing capability invocation aborts inspection with
the failure instead of yielding the heuristic (score, reason); likewise a
URL the parser rejects aborts inspection even with the capability absent. -/
theorem C5_counterexample :
    inspect_url (some (fun _ => .error "predict_proba failed")) "x" =
      .error "predict_proba failed" ∧
    inspect_url none "http://[" = .error "Invalid IPv6 URL" :=
  ⟨inspect_url_model_err _ "x" ⟨1, 0, 0, 0, false, false, false, 0, false, false⟩
      "predict_proba failed" extract_x
      (by rw [heuristic_x]; norm_num) rfl,
   inspect_url_parse_err none "http://[" "Invalid IPv6 URL"
      extract_features_invalid_ipv6⟩

/-- C6: aggregation follows the reference definition. (1) When the heuristic
score is at least 0.7 the heuristic pair is returned unchanged for *every*
capability — the capability is not invoked, since the result does not depend
on it at all; (2) with no capability configured the heuristic pair is
likewise returned unchanged; (3) otherwise the capability is invoked on the
ordered 8-dimensional `feature_vector` and the result is
`max probability heuristicScore` — never below the heuristic score — with
the reason reporting both component values. -/
theorem C6_theorem :
    (∀ (c : ScoringCapability) (url : String) (f : URLFeatures),
        extract_features url = .ok f → 0.7 ≤ (heuristic_score f).1 →
        inspect_url (some c) url = .ok (heuristic_score f)) ∧
    (∀ (url : String) (f : URLFeatures),
        extract_features url = .ok f →
        inspect_url none url = .ok (heuristic_score f)) ∧
    (∀ (c : ScoringCapability) (url : String) (f : URLFeatures) (p : ℚ),
        extract_features url = .ok f → (heuristic_score f).1 < 0.7 →
        c (feature_vector f) = .ok p →
        inspect_url (some c) url =
          .ok (max p (heuristic_score f).1,
               "ML+Heuristic score (ML=" ++ fmt2 p ++ ", heuristics=" ++
                 fmt2 (heuristic_score f).1 ++ ")") ∧
        (heuristic_score f).1 ≤ max p (heuristic_score f).1) :=
  ⟨inspect_url_highrisk, inspect_url_no_model,
   fun c url f p h h7 hp =>
     ⟨inspect_url_model_ok c url f p h h7 hp, le_max_right p _⟩⟩

theorem fmt2_half : fmt2 (1/2 : ℚ) = "0.50" := by
  norm_num [fmt2, round_eq]
  decide

theorem fmt2_zero : fmt2 (0 : ℚ) = "0.00" := by
  norm_num [fmt2, round_eq]
  decide

/-- C6 witness: a heuristic score of exactly 0.7 short-circuits — even a
capability that would fail is never consulted — and below 0.7 a capability
probability of 1/2 lifts a heuristic 0 to a final score of 1/2 with both
components reported. -/
theorem C6_witness :
    inspect_url (some (fun _ => .error "must not be invoked")) "a@%" =
      .ok (0.7, "Contains '@' symbol (redirect trick); Encoded characters (%) in URL") ∧
    inspect_url (some (fun _ => .ok (1/2 : ℚ))) "x" =
      .ok (1/2, "ML+Heuristic score (ML=0.50, heuristics=0.00)") := by
  constructor
  · rw [C6_theorem.1 (fun _ => .error "must not be invoked") "a@%"
        ⟨3, 0, 0, 0, false, true, true, 0, false, false⟩ extract_atpct
        (by rw [heuristic_atpct])]
    rw [heuristic_atpct]
  · rw [(C6_theorem.2.2 (fun _ => .ok (1/2 : ℚ)) "x"
        ⟨1, 0, 0, 0, false, false, false, 0, false, false⟩ (1/2 : ℚ) extract_x
        (by rw [heuristic_x]; norm_num) rfl).1, heuristic_x]
    norm_num [fmt2_half, fmt2_zero]
    decide

/-- C7: whenever inspection returns a result, the final risk score lies in
[0, 1] — given the data-model contract that the scoring capability returns a
probability in [0, 1] — and the reason string is non-empty; and a feature set
firing no rule scores 0 with the fixed reason "Heuristics indicate safe
URL". -/
theorem C7_theorem :
    (∀ (clf : Option ScoringCapability) (url : String) (s : ℚ) (r : String),
        (∀ c, clf = some c → ∀ v p, c v = .ok p → 0 ≤ p ∧ p ≤ 1) →
        inspect_url clf url = .ok (s, r) →
        0 ≤ s ∧ s ≤ 1 ∧ r ≠ "") ∧
    (∀ f : URLFeatures, f.has_ip = false → f.contains_at = false →
        f.contains_percent = false → f.suspicious_tld = false →
        ¬(f.length > 200) → ¬(f.num_slashes > 10) → ¬(f.entropy > 4.2) →
        heuristic_score f = (0, "Heuristics indicate safe URL")) := by
  refine ⟨?_, heuristic_score_safe⟩
  intro clf url s r hcap hok
  cases hext : extract_features url with
  | error e =>
      rw [inspect_url_parse_err clf url e hext] at hok
      cases hok
  | ok f =>
      by_cases hg : (0.7 : ℚ) ≤ (heuristic_score f).1 ∨ clf.isNone
      · have hres : inspect_url clf url = .ok (heuristic_score f) := by
          simp only [inspect_url, hext]
          exact if_pos hg
        rw [hres] at hok
        have hp : heuristic_score f = (s, r) := by
          injection hok
        refine ⟨?_, ?_, ?_⟩
        · have := heuristic_fst_nonneg f
          rwa [hp] at this
        · have := heuristic_fst_le_one f
          rwa [hp] at this
        · have := heuristic_snd_ne_empty f
          rwa [hp] at this
      · push_neg at hg
        obtain ⟨h7, hns⟩ := hg
        cases clf with
        | none => simp at hns
        | some c =>
            cases hc : c (feature_vector f) with
            | error e =>
                rw [inspect_url_model_err c url f e hext h7 hc] at hok
                cases hok
            | ok p =>
                rw [inspect_url_model_ok c url f p hext h7 hc] at hok
                have hpair :
                    (max p (heuristic_score f).1,
                     "ML+Heuristic score (ML=" ++ fmt2 p ++ ", heuristics=" ++
                       fmt2 (heuristic_score f).1 ++ ")") = ((s : ℚ), r) := by
                  injection hok
                have hs : max p (heuristic_score f).1 = s := congrArg Prod.fst hpair
                have hr : "ML+Heuristic score (ML=" ++ fmt2 p ++ ", heuristics=" ++
                    fmt2 (heuristic_score f).1 ++ ")" = r := congrArg Prod.snd hpair
                obtain ⟨hp0, hp1⟩ := hcap c rfl (feature_vector f) p hc
                refine ⟨?_, ?_, ?_⟩
                · rw [← hs]
                  exact le_max_of_le_left hp0
                · rw [← hs]
                  exact max_le hp1 (heuristic_fst_le_one f)
                · rw [← hr]
                  exact ml_reason_ne_empty _ _
  
/-- C7 witness: inspecting a concrete URL with no capability yields score 0
in [0, 1] and the non-empty safe-default reason. -/
theorem C7_witness :
    (0 : ℚ) ≤ 0 ∧ (0 : ℚ) ≤ 1 ∧ "Heuristics indicate safe URL" ≠ "" :=
  C7_theorem.1 none "x" 0 "Heuristics indicate safe URL"
    (fun c hc => nomatch hc)
    (by rw [inspect_url_no_model "x" ⟨1, 0, 0, 0, false, false, false, 0, false, false⟩
          extract_x, heuristic_x])

/-- C8: the heuristic score is monotone in the triggered rules — whenever
every rule triggered by feature set `f` is also triggered by feature set
`g`, the score of `g` is at least the score of `f`; in particular flipping
any single rule from untriggered to triggered, all else fixed, never
decreases the score. -/
theorem C8_theorem (f g : URLFeatures)
    (h1 : f.has_ip = true → g.has_ip = true)
    (h2 : f.contains_at = true → g.contains_at = true)
    (h3 : f.contains_percent = true → g.contains_percent = true)
    (h4 : f.suspicious_tld = true → g.suspicious_tld = true)
    (h5 : f.length > 200 → g.length > 200)
    (h6 : f.num_slashes > 10 → g.num_slashes > 10)
    (h7 : f.entropy > 4.2 → g.entropy > 4.2) :
    (heuristic_score f).1 ≤ (heuristic_score g).1 := by
  have hsum : rule_score (fired_rules f) ≤ rule_score (fired_rules g) := by
    rw [rule_score_fired, rule_score_fired]
    refine add_le_add (add_le_add (add_le_add (add_le_add (add_le_add (add_le_add
      (ite_w_mono (by norm_num) h1) (ite_w_mono (by norm_num) h2))
      (ite_w_mono (by norm_num) h3)) (ite_w_mono (by norm_num) h4))
      (ite_w_mono (by norm_num) h5)) (ite_w_mono (by norm_num) h6))
      (ite_w_mono (by norm_num) h7)
  calc (heuristic_score f).1 = min 1 (rule_score (fired_rules f)) := by
        rw [heuristic_score_eq]
    _ ≤ min 1 (rule_score (fired_rules g)) := min_le_min le_rfl hsum
    _ = (heuristic_score g).1 := by rw [heuristic_score_eq]

/-- C8 witness: turning on the suspicious-TLD rule alone never lowers the
score of an otherwise rule-free feature set. -/
theorem C8_witness :
    (heuristic_score ⟨1, 0, 0, 0, false, false, false, 0, false, false⟩).1 ≤
    (heuristic_score ⟨1, 0, 0, 0, false, false, false, 0, true, false⟩).1 :=
  C8_theorem _ _ (fun h => h) (fun h => h) (fun h => h) (fun _ => rfl)
    (fun h => h) (fun h => h) (fun h => h)

/-- C9 (amended): `heuristic_score` is exactly the ordered rule table — the
score is the clamped sum of the weights of the fired rows (the
suspicious-TLD row carrying weight +0.3) and the reason concatenates the
fired fragments in table order separated by "; " — but the suspicious-TLD
fragment is "Suspicious TLD (.tk/.ml/etc)", not the bare "Suspicious TLD"
(see `C9_counterexample`). -/
theorem C9_theorem (f : URLFeatures) :
    heuristic_score f =
      (min 1 (rule_score (fired_rules f)),
       String.intercalate "; "
         (if fired_rules f = [] then ["Heuristics indicate safe URL"]
          else rule_msgs (fired_rules f))) ∧
    (f.suspicious_tld = true →
      ((0.3 : ℚ), "Suspicious TLD (.tk/.ml/etc)") ∈ fired_rules f) := by
  refine ⟨heuristic_score_eq f, fun h => ?_⟩
  simp [fired_rules, h]

/-- C9 counterexample: on a feature set firing only the suspicious-TLD rule
the reason is the fragment "Suspicious TLD (.tk/.ml/etc)" — not the
fragment "Suspicious TLD" that the claim states. -/
theorem C9_counterexample :
    (heuristic_score ⟨1, 0, 0, 0, false, false, false, 0, true, false⟩).2 =
      "Suspicious TLD (.tk/.ml/etc)" ∧
    (heuristic_score ⟨1, 0, 0, 0, false, false, false, 0, true, false⟩).2 ≠
      "Suspicious TLD" := by
  have h : (heuristic_score ⟨1, 0, 0, 0, false, false, false, 0, true, false⟩).2 =
      "Suspicious TLD (.tk/.ml/etc)" := by
    rw [heuristic_score_eq]
    have hfr : fired_rules ⟨1, 0, 0, 0, false, false, false, 0, true, false⟩ =
        [((0.3 : ℚ), "Suspicious TLD (.tk/.ml/etc)")] := by
      norm_num [fired_rules]
    rw [hfr]
    decide
  exact ⟨h, by rw [h]; decide⟩

/-- C10: a URL written without a scheme separator — no ":" anywhere and no
leading "//" once `urlsplit`'s whitespace preprocessing is applied — parses
to an empty network location, so every host-derived feature is degenerate:
hostLength 0, dotCount 0, entropy 0, hasIP false and suspiciousTLD false —
none of the host-based risk rules can trigger on a bare dotted-quad or
denylisted-TLD domain. -/
theorem C10_theorem (url : String) (h1 : ':' ∉ urlsplit_clean url.data)
    (h2 : (urlsplit_clean url.data).take 2 ≠ ['/', '/']) :
    ∃ f, extract_features url = .ok f ∧ f.host_len = 0 ∧ f.num_dots = 0 ∧
      f.entropy = 0 ∧ f.has_ip = false ∧ f.suspicious_tld = false :=
  ⟨_, extract_features_no_scheme url h1 h2, rfl, rfl, rfl, rfl, rfl⟩

/-- C10 witness: the two bare-domain examples — a denylisted-TLD domain and
a dotted quad, both written without "http://" — yield empty-host degenerate
features. -/
theorem C10_witness :
    (∃ f, extract_features "example.tk/login" = .ok f ∧ f.host_len = 0 ∧
      f.num_dots = 0 ∧ f.entropy = 0 ∧ f.has_ip = false ∧
      f.suspicious_tld = false) ∧
    (∃ f, extract_features "1.2.3.4/login" = .ok f ∧ f.host_len = 0 ∧
      f.num_dots = 0 ∧ f.entropy = 0 ∧ f.has_ip = false ∧
      f.suspicious_tld = false) :=
  ⟨ C10_theorem "example.tk/login" (by decide) (by decide),
    C10_theorem "1.2.3.4/login" (by decide) (by decide)⟩
